import Mathlib

/-!
Shallow embedding of the feature-engineering and prediction core of the
NBA prediction service (`python-model/app`), over exact rational
arithmetic.  Python's `round(x, n)` (round-half-to-even on the scaled
value) is modelled by `pyRound`; `None`-valued optional inputs are
modelled by `Option ℚ`; Python dictionaries returned by the feature
calculators are modelled by structures with one field per key.
-/

namespace NBA

/-- Round-half-to-even of a rational to an integer, the rounding mode of
Python's builtin `round`. -/
def rhe (q : ℚ) : ℤ :=
  if Int.fract q < 1 / 2 then ⌊q⌋
  else if 1 / 2 < Int.fract q then ⌊q⌋ + 1
  else if ⌊q⌋ % 2 = 0 then ⌊q⌋ else ⌊q⌋ + 1

/-- Python `round(q, n)`: round-half-to-even at the n-th decimal place. -/
def pyRound (q : ℚ) (n : ℕ) : ℚ := (rhe (q * 10 ^ n) : ℚ) / 10 ^ n

lemma rhe_intCast (m : ℤ) : rhe (m : ℚ) = m := by
  unfold rhe
  rw [Int.fract_intCast, Int.floor_intCast]
  norm_num

lemma rhe_add_even (q : ℚ) (n : ℤ) (hn : n % 2 = 0) :
    rhe (q + n) = rhe q + n := by
  unfold rhe
  rw [Int.fract_add_int, Int.floor_add_int]
  have h2 : (⌊q⌋ + n) % 2 = ⌊q⌋ % 2 := by omega
  rw [h2]
  split_ifs <;> omega

lemma rhe_neg (q : ℚ) : rhe (-q) = -rhe q := by
  by_cases h : Int.fract q = 0
  · have hq : q = (⌊q⌋ : ℚ) := by
      have := Int.floor_add_fract q
      rw [h, add_zero] at this
      exact this.symm
    rw [hq, ← Int.cast_neg, rhe_intCast, rhe_intCast]
  · have hfr : Int.fract (-q) = 1 - Int.fract q := Int.fract_neg h
    have hfl : ⌊-q⌋ = -⌊q⌋ - 1 := by
      have h1 : Int.fract (-q) = -q - ⌊-q⌋ := (Int.self_sub_floor (-q)).symm
      have h2 : Int.fract q = q - ⌊q⌋ := (Int.self_sub_floor q).symm
      have h3 : ((⌊-q⌋ : ℤ) : ℚ) = ((-⌊q⌋ - 1 : ℤ) : ℚ) := by
        push_cast
        rw [h1, h2] at hfr
        linarith
      exact_mod_cast h3
    have h0 : 0 ≤ Int.fract q := Int.fract_nonneg q
    have h1 : Int.fract q < 1 := Int.fract_lt_one q
    unfold rhe
    rw [hfr, hfl]
    rcases lt_trichotomy (Int.fract q) (1 / 2) with hlt | heq | hgt
    · rw [if_neg (show ¬(1 - Int.fract q < 1 / 2) by linarith),
        if_pos (show (1 : ℚ) / 2 < 1 - Int.fract q by linarith), if_pos hlt]
      ring
    · rw [heq]
      norm_num
      split_ifs <;> omega
    · rw [if_pos (show 1 - Int.fract q < 1 / 2 by linarith),
        if_neg (show ¬(Int.fract q < 1 / 2) by linarith),
        if_pos (show (1 : ℚ) / 2 < Int.fract q from hgt)]
      ring

lemma pyRound_neg (q : ℚ) (n : ℕ) : pyRound (-q) n = -pyRound q n := by
  unfold pyRound
  rw [show -q * 10 ^ n = -(q * 10 ^ n) by ring, rhe_neg]
  push_cast
  ring

lemma pyRound_one_sub (p : ℚ) : pyRound (1 - p) 4 = 1 - pyRound p 4 := by
  unfold pyRound
  have h1 : (1 - p) * 10 ^ 4 = -(p * 10 ^ 4) + ((10000 : ℤ) : ℚ) := by
    push_cast; ring
  rw [h1, rhe_add_even _ 10000 (by norm_num), rhe_neg]
  push_cast
  ring

/-! ## Four Factors (`app/features/four_factors.py`) -/

/-- Dean Oliver factor weight for eFG%, `settings.efg_weight`. -/
def efg_weight : ℚ := 40 / 100

/-- Dean Oliver factor weight for TOV%, `settings.tov_weight`. -/
def tov_weight : ℚ := 25 / 100

/-- Dean Oliver factor weight for OREB%, `settings.oreb_weight`. -/
def oreb_weight : ℚ := 20 / 100

/-- Dean Oliver factor weight for FTR, `settings.ftr_weight`. -/
def ftr_weight : ℚ := 15 / 100

/-- Weighted composite Four Factors score
(`calculate_four_factors_composite`). -/
def calculate_four_factors_composite (efg tov oreb ftr opp_efg opp_tov
    opp_oreb opp_ftr : ℚ) : ℚ :=
  let off_score :=
    efg_weight * efg - tov_weight * tov + oreb_weight * oreb + ftr_weight * ftr
  let def_score :=
    efg_weight * (1 - opp_efg) + tov_weight * opp_tov
      + oreb_weight * (1 - opp_oreb) + ftr_weight * (1 - opp_ftr)
  off_score + def_score

/-- Return dictionary of `calculate_four_factors_differential`. -/
structure FourFactorsDiff where
  efg_diff : ℚ
  tov_diff : ℚ
  oreb_diff : ℚ
  ftr_diff : ℚ
  def_efg_diff : ℚ
  def_tov_diff : ℚ
  def_oreb_diff : ℚ
  def_ftr_diff : ℚ
  home_composite : ℚ
  away_composite : ℚ
  composite : ℚ

/-- Four Factors differentials between home and away teams
(`calculate_four_factors_differential`). -/
def calculate_four_factors_differential (home_efg home_tov home_oreb home_ftr
    home_opp_efg home_opp_tov home_opp_oreb home_opp_ftr
    away_efg away_tov away_oreb away_ftr
    away_opp_efg away_opp_tov away_opp_oreb away_opp_ftr : ℚ) :
    FourFactorsDiff :=
  let efg_diff := home_efg - away_efg
  let tov_diff := away_tov - home_tov
  let oreb_diff := home_oreb - away_oreb
  let ftr_diff := home_ftr - away_ftr
  let def_efg_diff := away_opp_efg - home_opp_efg
  let def_tov_diff := home_opp_tov - away_opp_tov
  let def_oreb_diff := away_opp_oreb - home_opp_oreb
  let def_ftr_diff := away_opp_ftr - home_opp_ftr
  let home_composite := calculate_four_factors_composite home_efg home_tov
    home_oreb home_ftr home_opp_efg home_opp_tov home_opp_oreb home_opp_ftr
  let away_composite := calculate_four_factors_composite away_efg away_tov
    away_oreb away_ftr away_opp_efg away_opp_tov away_opp_oreb away_opp_ftr
  { efg_diff := pyRound efg_diff 4
    tov_diff := pyRound tov_diff 4
    oreb_diff := pyRound oreb_diff 4
    ftr_diff := pyRound ftr_diff 4
    def_efg_diff := pyRound def_efg_diff 4
    def_tov_diff := pyRound def_tov_diff 4
    def_oreb_diff := pyRound def_oreb_diff 4
    def_ftr_diff := pyRound def_ftr_diff 4
    home_composite := pyRound home_composite 4
    away_composite := pyRound away_composite 4
    composite := pyRound (home_composite - away_composite) 4 }

/-! ## Adjusted ratings (`app/features/adjusted_rating.py`) -/

/-- SOS-adjusted offensive rating (`calculate_adjusted_ortg`): scales the
raw rating by `league_avg_drtg / sos_drtg`, returning the raw rating
unchanged when `sos_drtg <= 0`. -/
def calculate_adjusted_ortg (raw_ortg sos_drtg league_avg_drtg : ℚ) : ℚ :=
  if sos_drtg ≤ 0 then raw_ortg
  else raw_ortg * (league_avg_drtg / sos_drtg)

/-- SOS-adjusted defensive rating (`calculate_adjusted_drtg`): divides the
raw rating by `sos_ortg / league_avg_ortg`, returning the raw rating
unchanged when `sos_ortg <= 0`. -/
def calculate_adjusted_drtg (raw_drtg sos_ortg league_avg_ortg : ℚ) : ℚ :=
  if sos_ortg ≤ 0 then raw_drtg
  else raw_drtg / (sos_ortg / league_avg_ortg)

/-- Return dictionary of `calculate_adjusted_ratings`. -/
structure AdjustedRatings where
  home_adj_ortg : ℚ
  home_adj_drtg : ℚ
  home_adj_nrtg : ℚ
  away_adj_ortg : ℚ
  away_adj_drtg : ℚ
  away_adj_nrtg : ℚ
  adj_nrtg_diff : ℚ
  home_court_advantage : ℚ

/-- Resolve one side's adjusted (ortg, drtg) pair through the three-tier
fallback of `calculate_adjusted_ratings`: pre-computed adjusted values,
else SOS-derived values, else raw values. -/
def resolve_adjusted_pair (ortg drtg : ℚ) (sos_ortg sos_drtg : Option ℚ)
    (league_avg_ortg league_avg_drtg : ℚ) (adj_ortg adj_drtg : Option ℚ) :
    ℚ × ℚ :=
  match adj_ortg, adj_drtg with
  | some o, some d => (o, d)
  | _, _ =>
    match sos_ortg, sos_drtg with
    | some so, some sd =>
      (calculate_adjusted_ortg ortg sd league_avg_drtg,
       calculate_adjusted_drtg drtg so league_avg_ortg)
    | _, _ => (ortg, drtg)

/-- All adjusted ratings for a matchup (`calculate_adjusted_ratings`). -/
def calculate_adjusted_ratings (home_ortg home_drtg away_ortg away_drtg : ℚ)
    (home_sos_ortg home_sos_drtg away_sos_ortg away_sos_drtg : Option ℚ)
    (league_avg_ortg league_avg_drtg : ℚ)
    (home_adj_ortg home_adj_drtg away_adj_ortg away_adj_drtg : Option ℚ) :
    AdjustedRatings :=
  let hpair := resolve_adjusted_pair home_ortg home_drtg home_sos_ortg
    home_sos_drtg league_avg_ortg league_avg_drtg home_adj_ortg home_adj_drtg
  let apair := resolve_adjusted_pair away_ortg away_drtg away_sos_ortg
    away_sos_drtg league_avg_ortg league_avg_drtg away_adj_ortg away_adj_drtg
  let h_adj_nrtg := hpair.1 - hpair.2
  let a_adj_nrtg := apair.1 - apair.2
  let home_court_advantage : ℚ := 7 / 2
  let adj_nrtg_diff := (h_adj_nrtg + home_court_advantage) - a_adj_nrtg
  { home_adj_ortg := pyRound hpair.1 2
    home_adj_drtg := pyRound hpair.2 2
    home_adj_nrtg := pyRound h_adj_nrtg 2
    away_adj_ortg := pyRound apair.1 2
    away_adj_drtg := pyRound apair.2 2
    away_adj_nrtg := pyRound a_adj_nrtg 2
    adj_nrtg_diff := pyRound adj_nrtg_diff 2
    home_court_advantage := home_court_advantage }

/-! ## Player impact (`app/features/player_impact.py`) -/

/-- Python truthiness-guarded rounding, `round(x, n) if x else None`:
both `None` and `0.0` are falsy, so a present value of exactly `0.0`
yields `None`. -/
def roundIfTruthy (o : Option ℚ) (n : ℕ) : Option ℚ :=
  match o with
  | some x => if x = 0 then none else some (pyRound x n)
  | none => none

/-- Return dictionary of `calculate_bpm_differential`. -/
structure BpmDiff where
  home_bpm : ℚ
  away_bpm : ℚ
  bpm_diff : ℚ
  home_top_5_bpm : Option ℚ
  away_top_5_bpm : Option ℚ
  top_5_bpm_diff : ℚ

/-- The unrounded top-5 differential of `calculate_bpm_differential`:
`home - away` when both sides are supplied (the `is not None` tests),
0.0 otherwise. -/
def top5_diff_value (home_top_5_bpm away_top_5_bpm : Option ℚ) : ℚ :=
  match home_top_5_bpm, away_top_5_bpm with
  | some h, some a => h - a
  | _, _ => 0

/-- BPM differentials for a matchup (`calculate_bpm_differential`). -/
def calculate_bpm_differential (home_bpm away_bpm home_top_5_bpm
    away_top_5_bpm : Option ℚ) : BpmDiff :=
  let h_bpm := home_bpm.getD 0
  let a_bpm := away_bpm.getD 0
  let bpm_diff := h_bpm - a_bpm
  let top_5_diff : ℚ := top5_diff_value home_top_5_bpm away_top_5_bpm
  { home_bpm := pyRound h_bpm 2
    away_bpm := pyRound a_bpm 2
    bpm_diff := pyRound bpm_diff 2
    home_top_5_bpm := roundIfTruthy home_top_5_bpm 2
    away_top_5_bpm := roundIfTruthy away_top_5_bpm 2
    top_5_bpm_diff := pyRound top_5_diff 2 }

/-! ## Line movement (`app/features/line_movement.py`) -/

/-- Classify the significance of line movement
(`classify_line_movement`). -/
def classify_line_movement (movement threshold : ℚ) : String :=
  if movement ≤ -threshold then "sharp_home"
  else if threshold ≤ movement then "sharp_away"
  else "stable"

/-! ## Prediction engine (`app/models/xgboost_model.py`)

The transcendental functions used by the code (`math.log` in
`_prob_to_spread`, `math.exp` in `FallbackModel.predict`) and the XGBoost
booster's raw score are external to the rational embedding; they are
passed in as parameters (`L`, `E`, `p`).  `Features` models the feature
dictionary restricted to the keys `predict` reads, an absent key being
`none` (Python `dict.get` with a default). -/

/-- The feature-dictionary keys read by `XGBoostNBAModel.predict` and
`FallbackModel.predict`; `none` models an absent key. -/
structure Features where
  adj_nrtg_diff : Option ℚ
  home_adj_ortg : Option ℚ
  home_adj_drtg : Option ℚ
  away_adj_ortg : Option ℚ
  away_adj_drtg : Option ℚ
  projected_game_pace : Option ℚ

/-- Return dictionary of `predict` (both backends).  `FallbackModel`
omits the score keys; that is modelled as `none`. -/
structure PredictionOutput where
  home_win_prob : ℚ
  away_win_prob : ℚ
  predicted_spread : ℚ
  predicted_total : Option ℚ
  predicted_home_score : Option ℚ
  predicted_away_score : Option ℚ
  confidence : ℚ

/-- `XGBoostNBAModel._prob_to_spread`: clamp the probability to
`[0.01, 0.99]` and map through the inverse logistic `-k * ln(p/(1-p))`
with `k = 4.0`.  `L` stands for `math.log`. -/
def prob_to_spread (L : ℚ → ℚ) (prob : ℚ) : ℚ :=
  let p := max (1 / 100) (min (99 / 100) prob)
  let log_odds := L (p / (1 - p))
  let spread := -4 * log_odds
  spread

/-- The unrounded blended spread of `XGBoostNBAModel.predict`: the mean
of the rating-based estimate `-adj_nrtg_diff` (0 when the feature is
absent) and the probability-based estimate. -/
def model_spread_raw (L : ℚ → ℚ) (f : Features) (home_win_prob : ℚ) : ℚ :=
  let adj_nrtg_diff := f.adj_nrtg_diff.getD 0
  let predicted_spread := -adj_nrtg_diff
  let prob_based_spread := prob_to_spread L home_win_prob
  (predicted_spread + prob_based_spread) / 2

/-- `projected_pace = features.get("projected_game_pace", 100)`. -/
def projected_pace (f : Features) : ℚ := f.projected_game_pace.getD 100

/-- Home scoring efficiency in `predict`: the mean of the home offense
and away defense ratings (each defaulting to 110). -/
def home_efficiency (f : Features) : ℚ :=
  (f.home_adj_ortg.getD 110 + f.away_adj_drtg.getD 110) / 2

/-- Away scoring efficiency in `predict`: the mean of the away offense
and home defense ratings (each defaulting to 110). -/
def away_efficiency (f : Features) : ℚ :=
  (f.away_adj_ortg.getD 110 + f.home_adj_drtg.getD 110) / 2

/-- Clamp a raw score to the `[80, 140]` range,
`max(80, min(140, score))`. -/
def clamp_score (s : ℚ) : ℚ := max 80 (min 140 s)

/-- Home score after pace scaling, the +1.5 home-court boost and the
`[80, 140]` clamp, before the spread reconciliation nudge. -/
def clamped_home_score (f : Features) : ℚ :=
  clamp_score ((home_efficiency f / 100) * projected_pace f + 3 / 2)

/-- Away score after pace scaling, the -1.5 home-court penalty and the
`[80, 140]` clamp, before the spread reconciliation nudge. -/
def clamped_away_score (f : Features) : ℚ :=
  clamp_score ((away_efficiency f / 100) * projected_pace f - 3 / 2)

/-- `spread_adjustment = (predicted_spread * -1 - score_diff) / 2`. -/
def spread_adjustment (L : ℚ → ℚ) (f : Features) (p : ℚ) : ℚ :=
  (model_spread_raw L f p * (-1)
    - (clamped_home_score f - clamped_away_score f)) / 2

/-- Home score after the single corrective nudge (not re-clamped). -/
def nudged_home_score (L : ℚ → ℚ) (f : Features) (p : ℚ) : ℚ :=
  clamped_home_score f + spread_adjustment L f p

/-- Away score after the single corrective nudge (not re-clamped). -/
def nudged_away_score (L : ℚ → ℚ) (f : Features) (p : ℚ) : ℚ :=
  clamped_away_score f - spread_adjustment L f p

/-- `XGBoostNBAModel.predict`, parametrized by `math.log` (`L`) and the
booster's raw home-win probability `p` (the value of
`predict_proba`). -/
def model_predict (L : ℚ → ℚ) (f : Features) (p : ℚ) : PredictionOutput :=
  let home_win_prob := p
  let away_win_prob := 1 - home_win_prob
  let confidence := |home_win_prob - 1 / 2| * 2
  let predicted_spread := model_spread_raw L f home_win_prob
  let scores : Option ℚ × Option ℚ × Option ℚ :=
    if 0 < projected_pace f then
      (some (nudged_home_score L f p), some (nudged_away_score L f p),
       some (clamped_home_score f + clamped_away_score f))
    else (none, none, none)
  { home_win_prob := pyRound home_win_prob 4
    away_win_prob := pyRound away_win_prob 4
    predicted_spread := pyRound predicted_spread 1
    predicted_total := roundIfTruthy scores.2.2 1
    predicted_home_score := roundIfTruthy scores.1 1
    predicted_away_score := roundIfTruthy scores.2.1 1
    confidence := pyRound confidence 4 }

/-- `FallbackModel.predict`, parametrized by `math.exp` (`E`): win
probability from the logistic `1 / (1 + exp(-0.15 * adj_nrtg_diff))`,
spread `-adj_nrtg_diff`, no total or score projection. -/
def fallback_predict (E : ℚ → ℚ) (f : Features) : PredictionOutput :=
  let adj_nrtg_diff := f.adj_nrtg_diff.getD 0
  let home_win_prob := 1 / (1 + E (-(15 / 100) * adj_nrtg_diff))
  let away_win_prob := 1 - home_win_prob
  let confidence := |home_win_prob - 1 / 2| * 2
  { home_win_prob := pyRound home_win_prob 4
    away_win_prob := pyRound away_win_prob 4
    predicted_spread := pyRound (-adj_nrtg_diff) 1
    predicted_total := none
    predicted_home_score := none
    predicted_away_score := none
    confidence := pyRound confidence 4 }

/-! ## Helper lemmas -/

lemma pyRound_sub_comm (a b : ℚ) (n : ℕ) :
    pyRound (a - b) n = -pyRound (b - a) n := by
  rw [show a - b = -(b - a) by ring, pyRound_neg]

lemma rhe_zero : rhe 0 = 0 := by
  have := rhe_intCast 0
  simpa using this

lemma pyRound_zero (n : ℕ) : pyRound 0 n = 0 := by
  unfold pyRound
  rw [zero_mul, rhe_zero]
  norm_num

lemma clamp_score_ge (s : ℚ) : 80 ≤ clamp_score s := le_max_left _ _

lemma top5_diff_value_none_left (a5 : Option ℚ) :
    top5_diff_value none a5 = 0 := by
  cases a5 <;> rfl

lemma top5_diff_value_none_right (h5 : Option ℚ) :
    top5_diff_value h5 none = 0 := by
  cases h5 <;> rfl

lemma bpm_top_5_diff_eq (hb ab h5 a5 : Option ℚ) :
    (calculate_bpm_differential hb ab h5 a5).top_5_bpm_diff
      = pyRound (top5_diff_value h5 a5) 2 := rfl

lemma bpm_home_top5_eq (hb ab h5 a5 : Option ℚ) :
    (calculate_bpm_differential hb ab h5 a5).home_top_5_bpm
      = roundIfTruthy h5 2 := rfl

lemma bpm_away_top5_eq (hb ab h5 a5 : Option ℚ) :
    (calculate_bpm_differential hb ab h5 a5).away_top_5_bpm
      = roundIfTruthy a5 2 := rfl

lemma roundIfTruthy_zero (n : ℕ) : roundIfTruthy (some 0) n = none := by
  show (if (0 : ℚ) = 0 then none else some (pyRound 0 n)) = none
  rw [if_pos rfl]

lemma roundIfTruthy_of_ne (s : ℚ) (n : ℕ) (h : s ≠ 0) :
    roundIfTruthy (some s) n = some (pyRound s n) := by
  show (if s = 0 then none else some (pyRound s n)) = _
  rw [if_neg h]

lemma clamped_home_score_ge (f : Features) :
    80 ≤ clamped_home_score f := le_max_left _ _

lemma clamped_away_score_ge (f : Features) :
    80 ≤ clamped_away_score f := le_max_left _ _

lemma model_predict_total_eq (L : ℚ → ℚ) (f : Features) (p : ℚ)
    (h : 0 < projected_pace f) :
    (model_predict L f p).predicted_total
      = roundIfTruthy (some (clamped_home_score f + clamped_away_score f))
          1 := by
  unfold model_predict
  rw [if_pos h]

lemma model_predict_away_eq (L : ℚ → ℚ) (f : Features) (p : ℚ)
    (h : 0 < projected_pace f) :
    (model_predict L f p).predicted_away_score
      = roundIfTruthy (some (nudged_away_score L f p)) 1 := by
  unfold model_predict
  rw [if_pos h]

/-- A feature dictionary with extreme ratings, used to exhibit a
post-nudge score outside the `[80, 140]` clamp range. -/
def extreme_features : Features :=
  { adj_nrtg_diff := some (-400)
    home_adj_ortg := some 200
    home_adj_drtg := some 10
    away_adj_ortg := some 10
    away_adj_drtg := some 200
    projected_game_pace := some 100 }

/-! ## Claim theorems -/

/-- Claim C1, counterexample: with `home_opp_tov = 1` and every other
input 0, `calculate_four_factors_differential` returns
`def_tov_diff = 1`, not `away_opp_tov - home_opp_tov = -1`, so the
defensive turnover differential is not `awayAllowed - homeAllowed`. -/
theorem def_tov_diff_counterexample :
    (calculate_four_factors_differential 0 0 0 0 0 1 0 0 0 0 0 0 0 0
      0 0).def_tov_diff ≠ 0 - 1 := by
  simp only [calculate_four_factors_differential]
  norm_num [pyRound, rhe, Int.fract]

/-- Claim C1, amended: `calculate_four_factors_differential` returns
`def_efg_diff`, `def_oreb_diff` and `def_ftr_diff` equal to the away
team's allowed value minus the home team's allowed value (rounded to 4
decimals), but `def_tov_diff` is inverted: it equals `home_opp_tov`
minus `away_opp_tov`, since forcing more turnovers is better for the
home defense. -/
theorem def_diffs_amended (hE hT hO hF hoE hoT hoO hoF
    aE aT aO aF aoE aoT aoO aoF : ℚ) :
    (calculate_four_factors_differential hE hT hO hF hoE hoT hoO hoF
        aE aT aO aF aoE aoT aoO aoF).def_efg_diff = pyRound (aoE - hoE) 4
    ∧ (calculate_four_factors_differential hE hT hO hF hoE hoT hoO hoF
        aE aT aO aF aoE aoT aoO aoF).def_tov_diff = pyRound (hoT - aoT) 4
    ∧ (calculate_four_factors_differential hE hT hO hF hoE hoT hoO hoF
        aE aT aO aF aoE aoT aoO aoF).def_oreb_diff = pyRound (aoO - hoO) 4
    ∧ (calculate_four_factors_differential hE hT hO hF hoE hoT hoO hoF
        aE aT aO aF aoE aoT aoO aoF).def_ftr_diff = pyRound (aoF - hoF) 4 :=
  ⟨rfl, rfl, rfl, rfl⟩

/-- Claim C4: swapping every home input with the corresponding away
input in `calculate_four_factors_differential` negates all eight factor
differentials and the composite differential. -/
theorem four_factors_differential_antisymm (hE hT hO hF hoE hoT hoO hoF
    aE aT aO aF aoE aoT aoO aoF : ℚ) :
    (calculate_four_factors_differential aE aT aO aF aoE aoT aoO aoF
        hE hT hO hF hoE hoT hoO hoF).efg_diff
      = -(calculate_four_factors_differential hE hT hO hF hoE hoT hoO hoF
        aE aT aO aF aoE aoT aoO aoF).efg_diff
    ∧ (calculate_four_factors_differential aE aT aO aF aoE aoT aoO aoF
        hE hT hO hF hoE hoT hoO hoF).tov_diff
      = -(calculate_four_factors_differential hE hT hO hF hoE hoT hoO hoF
        aE aT aO aF aoE aoT aoO aoF).tov_diff
    ∧ (calculate_four_factors_differential aE aT aO aF aoE aoT aoO aoF
        hE hT hO hF hoE hoT hoO hoF).oreb_diff
      = -(calculate_four_factors_differential hE hT hO hF hoE hoT hoO hoF
        aE aT aO aF aoE aoT aoO aoF).oreb_diff
    ∧ (calculate_four_factors_differential aE aT aO aF aoE aoT aoO aoF
        hE hT hO hF hoE hoT hoO hoF).ftr_diff
      = -(calculate_four_factors_differential hE hT hO hF hoE hoT hoO hoF
        aE aT aO aF aoE aoT aoO aoF).ftr_diff
    ∧ (calculate_four_factors_differential aE aT aO aF aoE aoT aoO aoF
        hE hT hO hF hoE hoT hoO hoF).def_efg_diff
      = -(calculate_four_factors_differential hE hT hO hF hoE hoT hoO hoF
        aE aT aO aF aoE aoT aoO aoF).def_efg_diff
    ∧ (calculate_four_factors_differential aE aT aO aF aoE aoT aoO aoF
        hE hT hO hF hoE hoT hoO hoF).def_tov_diff
      = -(calculate_four_factors_differential hE hT hO hF hoE hoT hoO hoF
        aE aT aO aF aoE aoT aoO aoF).def_tov_diff
    ∧ (calculate_four_factors_differential aE aT aO aF aoE aoT aoO aoF
        hE hT hO hF hoE hoT hoO hoF).def_oreb_diff
      = -(calculate_four_factors_differential hE hT hO hF hoE hoT hoO hoF
        aE aT aO aF aoE aoT aoO aoF).def_oreb_diff
    ∧ (calculate_four_factors_differential aE aT aO aF aoE aoT aoO aoF
        hE hT hO hF hoE hoT hoO hoF).def_ftr_diff
      = -(calculate_four_factors_differential hE hT hO hF hoE hoT hoO hoF
        aE aT aO aF aoE aoT aoO aoF).def_ftr_diff
    ∧ (calculate_four_factors_differential aE aT aO aF aoE aoT aoO aoF
        hE hT hO hF hoE hoT hoO hoF).composite
      = -(calculate_four_factors_differential hE hT hO hF hoE hoT hoO hoF
        aE aT aO aF aoE aoT aoO aoF).composite := by
  simp only [calculate_four_factors_differential]
  exact ⟨pyRound_sub_comm _ _ 4, pyRound_sub_comm _ _ 4,
    pyRound_sub_comm _ _ 4, pyRound_sub_comm _ _ 4, pyRound_sub_comm _ _ 4,
    pyRound_sub_comm _ _ 4, pyRound_sub_comm _ _ 4, pyRound_sub_comm _ _ 4,
    pyRound_sub_comm _ _ 4⟩

/-- Claim C5: `calculate_adjusted_ratings` with all four raw ratings
equal, no SOS data and no pre-computed adjusted ratings yields
`adj_nrtg_diff = 3.5` (the fixed home-court bonus) and both adjusted net
ratings equal to 0, for any league averages. -/
theorem adjusted_ratings_equal_inputs (r lo ld : ℚ) :
    (calculate_adjusted_ratings r r r r none none none none lo ld none
        none none none).adj_nrtg_diff = 7 / 2
    ∧ (calculate_adjusted_ratings r r r r none none none none lo ld none
        none none none).home_adj_nrtg = 0
    ∧ (calculate_adjusted_ratings r r r r none none none none lo ld none
        none none none).away_adj_nrtg = 0
    ∧ (calculate_adjusted_ratings r r r r none none none none lo ld none
        none none none).home_court_advantage = 7 / 2 := by
  simp only [calculate_adjusted_ratings, resolve_adjusted_pair]
  refine ⟨?_, ?_, ?_, trivial⟩
  · rw [show r - r + 7 / 2 - (r - r) = (7 : ℚ) / 2 by ring]
    norm_num [pyRound, rhe, Int.fract]
  · rw [sub_self]
    exact pyRound_zero 2
  · rw [sub_self]
    exact pyRound_zero 2

/-- Claim C6: for every non-positive `sos_drtg`,
`calculate_adjusted_ortg` returns the raw offensive rating unchanged,
and for every non-positive `sos_ortg`, `calculate_adjusted_drtg`
returns the raw defensive rating unchanged. -/
theorem adjusted_rating_nonpositive_sos_guard
    (raw_o sos_d lavg_d raw_d sos_o lavg_o : ℚ)
    (hd : sos_d ≤ 0) (ho : sos_o ≤ 0) :
    calculate_adjusted_ortg raw_o sos_d lavg_d = raw_o
    ∧ calculate_adjusted_drtg raw_d sos_o lavg_o = raw_d := by
  constructor
  · unfold calculate_adjusted_ortg
    rw [if_pos hd]
  · unfold calculate_adjusted_drtg
    rw [if_pos ho]

/-- Witness for C6: the guard at `sos_drtg = 0` and `sos_ortg = -5`. -/
theorem adjusted_rating_nonpositive_sos_guard_witness :
    (0 : ℚ) ≤ 0 ∧ (-5 : ℚ) ≤ 0
    ∧ calculate_adjusted_ortg 112 0 110 = 112
    ∧ calculate_adjusted_drtg 108 (-5) 110 = 108 :=
  ⟨le_refl 0, by norm_num,
   (adjusted_rating_nonpositive_sos_guard 112 0 110 108 (-5) 110
     (le_refl 0) (by norm_num)).1,
   (adjusted_rating_nonpositive_sos_guard 112 0 110 108 (-5) 110
     (le_refl 0) (by norm_num)).2⟩

/-- Claim C7: `calculate_bpm_differential` is total over all optional
inputs (the embedding is a total function); a missing aggregate BPM is
treated as 0.0 on its side in `bpm_diff`, and `top_5_bpm_diff` is 0.0
whenever at least one top-5 value is missing, equalling home minus away
(rounded to 2 decimals) exactly when both are supplied. -/
theorem bpm_differential_missing_data (hb ab h5 a5 : Option ℚ) :
    (calculate_bpm_differential hb ab h5 a5).bpm_diff
        = pyRound (hb.getD 0 - ab.getD 0) 2
    ∧ ((h5 = none ∨ a5 = none) →
        (calculate_bpm_differential hb ab h5 a5).top_5_bpm_diff = 0)
    ∧ (∀ x y : ℚ, h5 = some x → a5 = some y →
        (calculate_bpm_differential hb ab h5 a5).top_5_bpm_diff
          = pyRound (x - y) 2) := by
  refine ⟨rfl, ?_, ?_⟩
  · rintro (rfl | rfl)
    · rw [bpm_top_5_diff_eq, top5_diff_value_none_left]
      exact pyRound_zero 2
    · rw [bpm_top_5_diff_eq, top5_diff_value_none_right]
      exact pyRound_zero 2
  · rintro x y rfl rfl
    rfl

/-- Witness for C7: a one-sided top-5 value yields a zero differential,
while two-sided values yield the rounded home-minus-away value. -/
theorem bpm_differential_missing_data_witness :
    (calculate_bpm_differential (some 3) none (some 2)
        none).top_5_bpm_diff = 0
    ∧ (calculate_bpm_differential (some 3) (some 1) (some 2)
        (some 1)).top_5_bpm_diff = pyRound (2 - 1) 2 :=
  ⟨(bpm_differential_missing_data (some 3) none (some 2) none).2.1
      (Or.inr rfl),
   (bpm_differential_missing_data (some 3) (some 1) (some 2)
      (some 1)).2.2 2 1 rfl rfl⟩

/-- Claim C8: for every positive threshold, `classify_line_movement`
returns "sharp_home" iff movement is at most the negated threshold,
"sharp_away" iff movement is at least the threshold, and "stable"
otherwise; at the default threshold 1.0, movement -1.5 is sharp_home,
+1.5 is sharp_away and 0.5 is stable. -/
theorem classify_line_movement_spec (m t : ℚ) (ht : 0 < t) :
    (classify_line_movement m t = "sharp_home" ↔ m ≤ -t)
    ∧ (classify_line_movement m t = "sharp_away" ↔ t ≤ m)
    ∧ (classify_line_movement m t = "stable" ↔ -t < m ∧ m < t)
    ∧ classify_line_movement (-(3 / 2)) 1 = "sharp_home"
    ∧ classify_line_movement (3 / 2) 1 = "sharp_away"
    ∧ classify_line_movement (1 / 2) 1 = "stable" := by
  refine ⟨?_, ?_, ?_, by norm_num [classify_line_movement],
    by norm_num [classify_line_movement],
    by norm_num [classify_line_movement]⟩
  · unfold classify_line_movement
    split_ifs with h1 h2
    · exact ⟨fun _ => h1, fun _ => rfl⟩
    · exact ⟨fun hc => absurd hc (by decide), fun hm => absurd hm h1⟩
    · exact ⟨fun hc => absurd hc (by decide), fun hm => absurd hm h1⟩
  · unfold classify_line_movement
    split_ifs with h1 h2
    · exact ⟨fun hc => absurd hc (by decide),
        fun hle => absurd ht (not_lt.mpr (by linarith))⟩
    · exact ⟨fun _ => h2, fun _ => rfl⟩
    · exact ⟨fun hc => absurd hc (by decide), fun hm => absurd hm h2⟩
  · unfold classify_line_movement
    split_ifs with h1 h2
    · exact ⟨fun hc => absurd hc (by decide), fun hp => by linarith [hp.1]⟩
    · exact ⟨fun hc => absurd hc (by decide), fun hp => by linarith [hp.2]⟩
    · exact ⟨fun _ => ⟨not_le.mp h1, not_le.mp h2⟩, fun _ => rfl⟩

/-- Witness for C8: the specification instantiated at the default
threshold 1.0 and movement -1.5. -/
theorem classify_line_movement_spec_witness :
    (0 : ℚ) < 1 ∧ classify_line_movement (-(3 / 2)) 1 = "sharp_home" :=
  ⟨by norm_num,
   (classify_line_movement_spec (-(3 / 2)) 1 (by norm_num)).2.2.2.1⟩

/-- Claim C10: a top-5 BPM value supplied as exactly 0.0 is reported as
`None` in the per-team field (Python truthiness, not a `None` test),
while `top_5_bpm_diff` still treats that side as supplied and is
computed from the 0.0 value. -/
theorem top5_truthiness_quirk (hb ab : Option ℚ) (x y : ℚ) :
    ((calculate_bpm_differential hb ab (some 0)
        (some y)).home_top_5_bpm = none
      ∧ (calculate_bpm_differential hb ab (some 0)
        (some y)).top_5_bpm_diff = pyRound (0 - y) 2)
    ∧ ((calculate_bpm_differential hb ab (some x)
        (some 0)).away_top_5_bpm = none
      ∧ (calculate_bpm_differential hb ab (some x)
        (some 0)).top_5_bpm_diff = pyRound (x - 0) 2) := by
  refine ⟨⟨?_, rfl⟩, ⟨?_, rfl⟩⟩
  · rw [bpm_home_top5_eq, roundIfTruthy_zero]
  · rw [bpm_away_top5_eq, roundIfTruthy_zero]

/-- Claim C2: for both prediction backends, the rounded home and away
win probabilities sum to exactly 1: `away = 1 - home` before rounding,
and round-half-to-even at 4 decimals of `p` and `1 - p` always sum to 1
because the scaling factor 10^4 is even. -/
theorem win_probs_sum_to_one (L E : ℚ → ℚ) (f : Features) (p : ℚ) :
    (model_predict L f p).home_win_prob
        + (model_predict L f p).away_win_prob = 1
    ∧ (fallback_predict E f).home_win_prob
        + (fallback_predict E f).away_win_prob = 1 := by
  constructor
  · simp only [model_predict]
    rw [pyRound_one_sub]
    ring
  · simp only [fallback_predict]
    rw [pyRound_one_sub]
    ring

/-- Claim C3: the model backend's predicted spread before the final
1-decimal rounding is the mean of the rating-based estimate (the
negated `adj_nrtg_diff` feature, 0 when absent) and the
probability-based estimate `-4 * ln(p / (1 - p))` with `p` clamped to
`[0.01, 0.99]` (with `L` standing for `math.log`). -/
theorem predicted_spread_blend (L : ℚ → ℚ) (f : Features) (p : ℚ) :
    (model_predict L f p).predicted_spread
        = pyRound (model_spread_raw L f p) 1
    ∧ model_spread_raw L f p
        = (-(f.adj_nrtg_diff.getD 0)
            + -(4 * L (max (1 / 100) (min (99 / 100) p)
                / (1 - max (1 / 100) (min (99 / 100) p))))) / 2 := by
  constructor
  · rfl
  · simp only [model_spread_raw, prob_to_spread]
    ring

/-- Claim C9: when `projected_game_pace > 0`, the model backend's single
spread-reconciliation pass preserves the total: the returned
`predicted_total` is the sum of the two clamped scores before the nudge,
the nudge adds and subtracts the same adjustment (so the nudged scores
still sum to the clamped total), the post-nudge score difference equals
the negated unrounded predicted spread, and the nudged scores are not
re-clamped — for a concrete input the returned away score is 210, far
outside `[80, 140]`.  `L` stands for `math.log`, whose only use on the
concrete input is `L 1 = ln 1 = 0`. -/
theorem score_reconciliation (L : ℚ → ℚ) (f : Features) (p : ℚ)
    (hpace : 0 < projected_pace f) (hL : L 1 = 0) :
    (model_predict L f p).predicted_total
        = some (pyRound (clamped_home_score f + clamped_away_score f) 1)
    ∧ nudged_home_score L f p + nudged_away_score L f p
        = clamped_home_score f + clamped_away_score f
    ∧ nudged_home_score L f p - nudged_away_score L f p
        = -model_spread_raw L f p
    ∧ ∃ (g : Features) (q v : ℚ), 0 < projected_pace g
        ∧ (model_predict L g q).predicted_away_score = some v
        ∧ 140 < v := by
  have hsum : clamped_home_score f + clamped_away_score f ≠ 0 := by
    have h1 := clamped_home_score_ge f
    have h2 := clamped_away_score_ge f
    intro h0
    linarith
  refine ⟨?_, ?_, ?_, ?_⟩
  · rw [model_predict_total_eq L f p hpace,
      roundIfTruthy_of_ne _ _ hsum]
  · simp only [nudged_home_score, nudged_away_score]
    ring
  · simp only [nudged_home_score, nudged_away_score, spread_adjustment]
    ring
  · have hp1 : (0 : ℚ) < projected_pace extreme_features := by
      norm_num [projected_pace, extreme_features, Option.getD_some]
    have hmin : min (99 / 100 : ℚ) (1 / 2) = 1 / 2 :=
      min_eq_right (by norm_num)
    have hmax : max (1 / 100 : ℚ) (1 / 2) = 1 / 2 :=
      max_eq_right (by norm_num)
    have harg : (1 / 2 : ℚ) / (1 - 1 / 2) = 1 := by norm_num
    have hps : prob_to_spread L (1 / 2) = 0 := by
      simp only [prob_to_spread]
      rw [hmin, hmax, harg, hL]
      ring
    have hraw : model_spread_raw L extreme_features (1 / 2) = 200 := by
      simp only [model_spread_raw]
      rw [hps]
      norm_num [extreme_features, Option.getD_some]
    have hch : clamped_home_score extreme_features = 140 := by
      simp only [clamped_home_score, clamp_score, home_efficiency, projected_pace]
      norm_num [extreme_features, Option.getD_some, min_def, max_def]
    have hca : clamped_away_score extreme_features = 80 := by
      simp only [clamped_away_score, clamp_score, away_efficiency, projected_pace]
      norm_num [extreme_features, Option.getD_some, min_def, max_def]
    have hadj : spread_adjustment L extreme_features (1 / 2) = -130 := by
      simp only [spread_adjustment]
      rw [hraw, hch, hca]
      norm_num
    have hnaw : nudged_away_score L extreme_features (1 / 2) = 210 := by
      simp only [nudged_away_score]
      rw [hca, hadj]
      norm_num
    refine ⟨extreme_features, 1 / 2, 210, hp1, ?_, by norm_num⟩
    rw [model_predict_away_eq L extreme_features (1 / 2) hp1, hnaw,
      roundIfTruthy_of_ne 210 1 (by norm_num)]
    congr 1
    norm_num [pyRound, rhe, Int.fract]

/-- Witness for C9: the reconciliation theorem instantiated at the
extreme feature dictionary, probability 1/2 and the zero log
function. -/
theorem score_reconciliation_witness :
    (0 : ℚ) < projected_pace extreme_features
    ∧ (fun _ : ℚ => (0 : ℚ)) 1 = 0
    ∧ ((model_predict (fun _ => 0) extreme_features
            (1 / 2)).predicted_total
        = some (pyRound (clamped_home_score extreme_features
            + clamped_away_score extreme_features) 1)
      ∧ nudged_home_score (fun _ => 0) extreme_features (1 / 2)
          + nudged_away_score (fun _ => 0) extreme_features (1 / 2)
        = clamped_home_score extreme_features
          + clamped_away_score extreme_features
      ∧ nudged_home_score (fun _ => 0) extreme_features (1 / 2)
          - nudged_away_score (fun _ => 0) extreme_features (1 / 2)
        = -model_spread_raw (fun _ => 0) extreme_features (1 / 2)
      ∧ ∃ (g : Features) (q v : ℚ), 0 < projected_pace g
          ∧ (model_predict (fun _ => 0) g q).predicted_away_score = some v
          ∧ 140 < v) :=
  ⟨by norm_num [projected_pace, extreme_features, Option.getD_some], rfl,
   score_reconciliation (fun _ => 0) extreme_features (1 / 2)
     (by norm_num [projected_pace, extreme_features, Option.getD_some])
     rfl⟩

end NBA
